import Mathlib

/-!
Verification of the two extractive question-answering scripts
(`Basic_Haystack_Pipelines.py` and `Extractive_QA_with_Chunking.py`).

The scripts are glue code over an external pipeline framework: the document
store, the embedders, the retriever, the extractive reader and the text
splitter are third-party components configured and wired together by the
scripts.  The configuration data (model strings, queries, sample texts,
`top_k` parameters, component connections) is embedded here directly from the
source files; the four external capabilities are modelled from the
specification's abstract description of their contracts, as the corresponding
implementations are not part of this repository.
-/

/-- A document record: text content plus an optional embedding vector, as
built by `Document(content=val)` and later enriched by the document embedder.
Vectors are modelled as rational lists. -/
structure Document where
  content : String
  embedding : Option (List ℚ) := none
deriving DecidableEq, Repr

/-- Dot product of two vectors, the similarity the in-memory store uses for
embedding retrieval. -/
def dot (v w : List ℚ) : ℚ := (List.zipWith (· * ·) v w).sum

/-- Similarity of a stored document to a query vector: dot product of the
query vector with the document's stored embedding (empty if absent). -/
def simil (q : List ℚ) (d : Document) : ℚ := dot q (d.embedding.getD [])

/-- Comparison used to rank retrieved documents: `a` scores at least as high
as `b` against the query vector `q`. -/
def docGE (q : List ℚ) (a b : Document) : Prop := simil q b ≤ simil q a

instance instDocGEDec (q : List ℚ) : DecidableRel (docGE q) :=
  fun a b => inferInstanceAs (Decidable (simil q b ≤ simil q a))

instance instDocGETotal (q : List ℚ) : IsTotal Document (docGE q) :=
  ⟨fun a b => le_total (simil q b) (simil q a)⟩

instance instDocGETrans (q : List ℚ) : IsTrans Document (docGE q) :=
  ⟨fun _ _ _ h₁ h₂ => le_trans h₂ h₁⟩

/-- Modelled from the spec: the `InMemoryEmbeddingRetriever` (external
component).  "supports nearest-neighbor retrieval of the top-K most similar
stored vectors to a query vector, returning the associated texts in
decreasing similarity order": every stored document is ranked by decreasing
similarity to the query vector and the first `top_k` are returned. -/
def retrieve (store : List Document) (query_embedding : List ℚ) (top_k : ℕ) :
    List Document :=
  (List.insertionSort (docGE query_embedding) store).take top_k

/-- An extracted answer: the span text (`data`, as accessed by
`result["reader"]["answers"][0].data`) and its confidence score. -/
structure Answer where
  data : String
  score : ℚ
deriving DecidableEq, Repr

/-- Comparison used to rank answers: `a` has confidence at least `b`. -/
def ansGE (a b : Answer) : Prop := b.score ≤ a.score

instance instAnsGEDec : DecidableRel ansGE :=
  fun a b => inferInstanceAs (Decidable (b.score ≤ a.score))

instance instAnsGETotal : IsTotal Answer ansGE :=
  ⟨fun a b => le_total b.score a.score⟩

instance instAnsGETrans : IsTrans Answer ansGE :=
  ⟨fun _ _ _ h₁ h₂ => le_trans h₂ h₁⟩

/-- The contiguous slice of a character list starting at position `i` with
length (at most) `len`. -/
def sliceSpan (cs : List Char) (i len : ℕ) : List Char := (cs.drop i).take len

/-- All contiguous spans of a passage, as strings: every slice at every
start position and length. -/
def spans (p : String) : List String :=
  (List.range (p.toList.length + 1)).flatMap (fun i =>
    (List.range (p.toList.length + 1)).map (fun len =>
      (sliceSpan p.toList i len).asString))

/-- Modelled from the spec: the candidate answers of the `ExtractiveReader`
(external model).  "given a query and a set of candidate passages, returns
the top-K answer spans (substrings of the passages) ranked by a confidence
score": every contiguous span of every passage is a candidate, scored by the
reader model's confidence function `f` (external, kept abstract). -/
def readerCandidates (f : String → String → ℚ) (query : String)
    (passages : List String) : List Answer :=
  passages.flatMap (fun p =>
    (spans p).map (fun s => { data := s, score := f query s }))

/-- Modelled from the spec: the `ExtractiveReader` run (external model):
rank all candidate spans by decreasing confidence and return the first
`top_k`. -/
def extractiveRead (f : String → String → ℚ) (query : String)
    (passages : List String) (top_k : ℕ) : List Answer :=
  (List.insertionSort ansGE (readerCandidates f query passages)).take top_k

/-- Modelled from the spec: the text-chunking capability
(`CharacterTextSplitter.from_tiktoken_encoder`, external).  "splits long
text into bounded-length segments under a token-count limit, preserving
read order, with no defined overlap/recombination logic beyond concatenation
order": the token sequence of the input is cut into consecutive segments of
at most `limit` tokens each. -/
def chunkTokens (limit : ℕ) : List α → List (List α)
  | [] => []
  | x :: rest =>
      (x :: rest.take (limit - 1)) :: chunkTokens limit (rest.drop (limit - 1))
termination_by xs => xs.length
decreasing_by simp [List.length_drop]; omega

/-- Modelled from the spec: the embedding capability (external model).
"maps arbitrary text to a fixed-length numeric vector"; as an executable
stand-in for the neural model, dimension `d` with a bag-of-character-codes
vector. -/
def embedText (d : ℕ) (t : String) : List ℚ :=
  (List.range d).map (fun i =>
    ((t.toList.filter (fun c => c.toNat % d = i)).length : ℚ))

/-- The document embedder step of the indexing pipeline: attach to a
document the embedding of its content, computed by the embedding model
`E`. -/
def embedDoc (E : String → List ℚ) (d : Document) : Document :=
  { d with embedding := some (E d.content) }

/-- `InMemoryDocumentStore()`: a freshly initialized store holds no
documents. -/
def newDocumentStore : List Document := []

/-- The indexing pipeline (`embedder.documents -> writer.documents`): embed
each input document and append the results to the store. -/
def runIndexingPipeline (E : String → List ℚ) (store : List Document)
    (docs : List Document) : List Document :=
  store ++ docs.map (embedDoc E)

/-- The extractive QA pipeline run, following the component connections
`embedder.embedding -> retriever.query_embedding` and
`retriever.documents -> reader.documents`: embed the query text, retrieve
the top documents from the store with that vector, and run the reader on
exactly the retrieved documents' contents. -/
def runQAPipeline (E : String → List ℚ) (f : String → String → ℚ)
    (store : List Document) (query : String) (retriever_top_k reader_top_k : ℕ) :
    List Answer :=
  let query_embedding := E query
  let retrieved := retrieve store query_embedding retriever_top_k
  extractiveRead f query (retrieved.map Document.content) reader_top_k

/-- The final extraction step `result["reader"]["answers"][0].data`,
modelled totally: `none` exactly when the answers list is empty (where the
script's unguarded index would raise). -/
def finalResponse (answers : List Answer) : Option String :=
  answers[0]?.map Answer.data

/-- The configuration a script passes to the framework components. -/
structure ScriptConfig where
  docEmbedderModel : String
  textEmbedderModel : String
  readerModel : Option String
  query : String
  retrieverTopK : ℕ
  readerTopK : ℕ
  indexingConnections : List (String × String)
  qaConnections : List (String × String)
  chunksInput : Bool
deriving DecidableEq, Repr

/-- The embedding model string both scripts assign to `model`. -/
def embeddingModelName : String := "sentence-transformers/multi-qa-mpnet-base-dot-v1"

/-- The five hard-coded sample snippets of the basic script, in the
dictionary's insertion order. -/
def sample_texts : List (String × String) := [
  ("text1", "In 2023, the GDP of Country A grew by 3.5%, reaching a total of $1.5 trillion. This growth is attributed to increased consumer spending and a booming technology sector."),
  ("text2", "As of 2024, the population of City B is approximately 2.3 million, reflecting an increase of 4% from the previous year. The city has implemented new housing policies to accommodate the growing population."),
  ("text3", "In the 2022 season, Team C won 28 out of 50 games, achieving a win rate of 56%. They finished first in their division and qualified for the playoffs."),
  ("text4", "According to the latest environmental report, Company D reduced its carbon emissions by 20% over the past five years, bringing the total emissions down to 80,000 tons per year."),
  ("text5", "In 2023, School E had a graduation rate of 92%, with 300 out of 325 students successfully completing their programs. The school also reported an increase in student enrollment by 15%.")]

def chunkingText : String :=
  "\nIn 2023, the global technology industry saw a remarkable transformation driven by advancements in artificial intelligence, \nmachine learning, and the Internet of Things (IoT). According to the International Data Corporation (IDC), global spending \non AI systems is projected to reach $500 billion, demonstrating a compound annual growth rate (CAGR) of 20% over the next \nfive years. Companies across various sectors have begun to integrate AI into their operations, leading to increased efficiency \nand reduced costs.\n\nIn the automotive industry, electric vehicles (EVs) gained significant traction, with sales increasing by 35% compared to \n2022. Major automakers such as Tesla, Ford, and General Motors announced plans to expand their EV offerings. In addition, \ngovernments worldwide have implemented incentives to promote the adoption of electric vehicles, including tax credits and \nsubsidies. The push for sustainable transportation solutions is also supported by advancements in battery technology, \nwhich have improved the range and affordability of EVs.\n\nThe healthcare sector has also experienced a significant transformation due to technology. Telehealth services surged in \npopularity, with a report from McKinsey & Company indicating that 40% of patients utilized telehealth options in 2023. \nThis shift has made healthcare more accessible, particularly for individuals in rural areas. Furthermore, artificial \nintelligence has been instrumental in improving diagnostic accuracy, with AI algorithms capable of analyzing medical images \nand predicting patient outcomes with high precision.\n\nIn the finance sector, blockchain technology continued to gain momentum. The total market capitalization of cryptocurrencies \nsurpassed $2 trillion, with Bitcoin and Ethereum remaining the most dominant currencies. Traditional financial institutions \nhave begun to explore blockchain solutions for various applications, including cross-border payments, smart contracts, and \nasset tokenization. Regulatory bodies are also working to establish frameworks to ensure the security and legitimacy of \ncryptocurrency transactions.\n\nMoreover, the retail industry underwent significant changes due to the increasing reliance on e-commerce. Online sales \naccounted for over 25% of total retail sales in 2023, according to the U.S. Department of Commerce. Retailers such as \nAmazon and Walmart expanded their online marketplaces, while smaller businesses also embraced e-commerce to reach a broader \naudience. Personalized shopping experiences powered by AI and machine learning algorithms have enhanced customer satisfaction \nand loyalty.\n\nSustainability emerged as a key focus for businesses across all sectors. Companies are increasingly adopting sustainable \npractices to reduce their carbon footprints and improve their environmental impact. According to a survey by Deloitte, 75% \nof consumers are willing to pay more for products from companies that demonstrate a commitment to sustainability. As a \nresult, many organizations have set ambitious sustainability goals, including carbon neutrality by 2030 and zero waste to landfill.\n\nIn education, technology played a pivotal role in enhancing the learning experience. Online learning platforms gained popularity, \nproviding access to quality education for students worldwide. The COVID-19 pandemic accelerated the adoption of remote learning, \nleading to innovations in digital classrooms and interactive learning materials. Educators have also begun to integrate gamification \nand adaptive learning technologies to engage students and personalize their educational journeys.\n\nThe entertainment industry has also seen a shift due to the rise of streaming services. Platforms like Netflix, Hulu, and Disney+ \nhave gained millions of subscribers, leading to a decline in traditional cable television viewership. Original content production \nhas skyrocketed, with streaming services investing heavily in creating exclusive shows and movies to attract and retain subscribers. \nThis shift has also changed how audiences consume media, with binge-watching becoming a common behavior.\n\nAs we move forward into 2024, the convergence of these technological advancements will continue to shape various industries. \nBusinesses that embrace innovation and prioritize sustainability will likely thrive in this rapidly changing landscape. The \nintegration of technology in everyday life is expected to deepen, influencing how we work, learn, and interact with one another. \nStakeholders across sectors must adapt to these changes and recognize the opportunities presented by emerging technologies.\n"
/-- The texts the basic script indexes: the values of `sample_texts`. -/
def basicInputTexts : List String := sample_texts.map Prod.snd

/-- `documents = [Document(content=val) for val in sample_texts.values()]`
in the basic script. -/
def basicDocuments : List Document :=
  basicInputTexts.map (fun val => { content := val })

/-- The token limit `chunk_size=512` the chunking script configures. -/
def chunkSize : ℕ := 512

/-- The tokenizer encoding name the chunking script configures. -/
def encodingName : String := "cl100k_base"

/-- The configuration of `Basic_Haystack_Pipelines.py`: both embedders get
the one `model` string, the reader is `ExtractiveReader()` (default model),
`top_k` is 3 for the retriever and 1 for the reader, and the input text is
not chunked. -/
def basicScript : ScriptConfig where
  docEmbedderModel := embeddingModelName
  textEmbedderModel := embeddingModelName
  readerModel := none
  query := "What was the graduation rate for School E in 2023?"
  retrieverTopK := 3
  readerTopK := 1
  indexingConnections := [("embedder.documents", "writer.documents")]
  qaConnections :=
    [("embedder.embedding", "retriever.query_embedding"),
     ("retriever.documents", "reader.documents")]
  chunksInput := false

/-- The configuration of `Extractive_QA_with_Chunking.py`: both embedders
get the one `model` string, the reader is
`ExtractiveReader(model="deepset/bert-base-uncased-squad2")`, `top_k` is 3
for the retriever and 1 for the reader, and the input text is chunked before
indexing. -/
def chunkingScript : ScriptConfig where
  docEmbedderModel := embeddingModelName
  textEmbedderModel := embeddingModelName
  readerModel := some "deepset/bert-base-uncased-squad2"
  query := "What is the projected global spending on AI systems in 2023?"
  retrieverTopK := 3
  readerTopK := 1
  indexingConnections := [("embedder.documents", "writer.documents")]
  qaConnections :=
    [("embedder.embedding", "retriever.query_embedding"),
     ("retriever.documents", "reader.documents")]
  chunksInput := true

theorem asString_toList (cs : List Char) : (List.asString cs).toList = cs := rfl

theorem asString_length (cs : List Char) : (List.asString cs).length = cs.length := rfl

theorem toList_length (s : String) : s.toList.length = s.length := rfl

theorem sliceSpan_decomp (cs : List Char) (i len : ℕ) :
    cs.take i ++ sliceSpan cs i len ++ (cs.drop i).drop len = cs := by
  rw [sliceSpan, List.append_assoc, List.take_append_drop, List.take_append_drop]

theorem sliceSpan_length_le (cs : List Char) (i len : ℕ) :
    (sliceSpan cs i len).length ≤ cs.length := by
  simp only [sliceSpan, List.length_take, List.length_drop]
  omega

theorem mem_spans {s p : String} (h : s ∈ spans p) :
    ∃ i len, s = (sliceSpan p.toList i len).asString := by
  simp only [spans, List.mem_flatMap, List.mem_map, List.mem_range] at h
  obtain ⟨i, _, len, _, rfl⟩ := h
  exact ⟨i, len, rfl⟩

theorem answer_data_substring {f : String → String → ℚ} {q : String}
    {ps : List String} {a : Answer} (h : a ∈ readerCandidates f q ps) :
    ∃ p ∈ ps, (∃ pre post, pre ++ a.data.toList ++ post = p.toList) ∧
      a.data.length ≤ p.length := by
  simp only [readerCandidates, List.mem_flatMap, List.mem_map] at h
  obtain ⟨p, hp, s, hs, rfl⟩ := h
  obtain ⟨i, len, rfl⟩ := mem_spans hs
  refine ⟨p, hp, ⟨p.toList.take i, (p.toList.drop i).drop len, ?_⟩, ?_⟩
  · rw [asString_toList]
    exact sliceSpan_decomp p.toList i len
  · rw [asString_length, ← toList_length]
    exact sliceSpan_length_le p.toList i len

theorem chunkTokens_flatten (limit : ℕ) : (xs : List α) →
    (chunkTokens limit xs).flatten = xs
  | [] => by simp [chunkTokens]
  | x :: rest => by
    simp only [chunkTokens, List.flatten_cons]
    rw [chunkTokens_flatten limit (rest.drop (limit - 1))]
    simp [List.take_append_drop]
termination_by xs => xs.length
decreasing_by simp [List.length_drop]; omega

theorem chunkTokens_mem_length (limit : ℕ) (h : 1 ≤ limit) : (xs : List α) →
    ∀ c ∈ chunkTokens limit xs, c.length ≤ limit
  | [] => by simp [chunkTokens]
  | x :: rest => by
    intro c hc
    simp only [chunkTokens, List.mem_cons] at hc
    rcases hc with rfl | hc
    · simp only [List.length_cons, List.length_take]
      omega
    · exact chunkTokens_mem_length limit h (rest.drop (limit - 1)) c hc
termination_by xs => xs.length
decreasing_by simp [List.length_drop]; omega

/-- Claim C1: for every query and every set of candidate passages, each
answer the extractive reader returns is a verbatim contiguous substring of
one of the input passages and no longer than that passage, the answers are
ranked by decreasing confidence score, at most `top_k` answers are
returned, and both scripts configure the reader with `top_k = 1`. -/
theorem C1_reader_contract (f : String → String → ℚ) (q : String)
    (ps : List String) (k : ℕ) :
    (extractiveRead f q ps k).length ≤ k ∧
    List.Sorted ansGE (extractiveRead f q ps k) ∧
    (∀ a ∈ extractiveRead f q ps k, ∃ p ∈ ps,
      (∃ pre post, pre ++ a.data.toList ++ post = p.toList) ∧
      a.data.length ≤ p.length) ∧
    basicScript.readerTopK = 1 ∧ chunkingScript.readerTopK = 1 := by
  refine ⟨List.length_take_le _ _, ?_, ?_, rfl, rfl⟩
  · exact List.Pairwise.sublist (List.take_sublist _ _)
      (List.sorted_insertionSort ansGE (readerCandidates f q ps))
  · intro a ha
    have hmem : a ∈ readerCandidates f q ps :=
      (List.perm_insertionSort ansGE _).mem_iff.mp (List.take_subset _ _ ha)
    exact answer_data_substring hmem

/-- Concrete instantiation of the reader contract at a constant confidence
function, the query `"a"`, the single passage `"ab"` and `top_k = 1`. -/
theorem C1_reader_contract_witness :
    (extractiveRead (fun _ _ => 0) "a" ["ab"] 1).length ≤ 1 ∧
    List.Sorted ansGE (extractiveRead (fun _ _ => 0) "a" ["ab"] 1) ∧
    (∀ a ∈ extractiveRead (fun _ _ => 0) "a" ["ab"] 1, ∃ p ∈ ["ab"],
      (∃ pre post, pre ++ a.data.toList ++ post = p.toList) ∧
      a.data.length ≤ p.length) ∧
    basicScript.readerTopK = 1 ∧ chunkingScript.readerTopK = 1 :=
  C1_reader_contract (fun _ _ => 0) "a" ["ab"] 1

/-- Claim C2: for every query vector and every store state, the in-memory
retriever returns at most `top_k` documents, each returned document (and
hence its text) is one stored in the document store, the returned documents
are ordered by decreasing similarity of their stored vectors to the query
vector, and both scripts configure the retriever with `top_k = 3`. -/
theorem C2_retriever_contract (store : List Document) (q : List ℚ) (k : ℕ) :
    (retrieve store q k).length ≤ k ∧
    List.Sorted (docGE q) (retrieve store q k) ∧
    (∀ d ∈ retrieve store q k, d ∈ store ∧
      d.content ∈ store.map Document.content) ∧
    basicScript.retrieverTopK = 3 ∧ chunkingScript.retrieverTopK = 3 := by
  refine ⟨List.length_take_le _ _, ?_, ?_, rfl, rfl⟩
  · exact List.Pairwise.sublist (List.take_sublist _ _)
      (List.sorted_insertionSort (docGE q) store)
  · intro d hd
    have hmem : d ∈ store :=
      (List.perm_insertionSort (docGE q) store).mem_iff.mp
        (List.take_subset _ _ hd)
    exact ⟨hmem, List.mem_map_of_mem Document.content hmem⟩

/-- Concrete instantiation of the retriever contract at a two-document
store, the query vector `[1]` and `top_k = 3`. -/
theorem C2_retriever_contract_witness :
    (retrieve [{ content := "a", embedding := some [1] },
               { content := "b", embedding := some [2] }] [1] 3).length ≤ 3 ∧
    List.Sorted (docGE [1])
      (retrieve [{ content := "a", embedding := some [1] },
                 { content := "b", embedding := some [2] }] [1] 3) ∧
    (∀ d ∈ retrieve [{ content := "a", embedding := some [1] },
                     { content := "b", embedding := some [2] }] [1] 3,
      d ∈ [({ content := "a", embedding := some [1] } : Document),
           { content := "b", embedding := some [2] }] ∧
      d.content ∈ [({ content := "a", embedding := some [1] } : Document),
                   { content := "b", embedding := some [2] }].map Document.content) ∧
    basicScript.retrieverTopK = 3 ∧ chunkingScript.retrieverTopK = 3 :=
  C2_retriever_contract
    [{ content := "a", embedding := some [1] },
     { content := "b", embedding := some [2] }] [1] 3

/-- Claim C3: the chunking step cuts a token sequence into segments of at
most `chunk_size = 512` tokens each, whose concatenation in order is the
original sequence (read order preserved, no overlap, no recombination);
the configured encoding is `cl100k_base`. -/
theorem C3_chunking_contract (tokens : List ℕ) :
    (∀ c ∈ chunkTokens chunkSize tokens, c.length ≤ chunkSize) ∧
    (chunkTokens chunkSize tokens).flatten = tokens ∧
    chunkSize = 512 ∧ encodingName = "cl100k_base" :=
  ⟨chunkTokens_mem_length chunkSize (by decide) tokens,
   chunkTokens_flatten chunkSize tokens, rfl, rfl⟩

/-- Concrete instantiation of the chunking contract at the token sequence
`[0, 1, 2]`. -/
theorem C3_chunking_contract_witness :
    (∀ c ∈ chunkTokens chunkSize [0, 1, 2], c.length ≤ chunkSize) ∧
    (chunkTokens chunkSize [0, 1, 2]).flatten = [0, 1, 2] ∧
    chunkSize = 512 ∧ encodingName = "cl100k_base" :=
  C3_chunking_contract [0, 1, 2]

/-- Claim C4: the embedding capability maps every text to a vector of the
configured fixed length, and in each script the document embedder and the
query embedder are configured with the same single model string
`"sentence-transformers/multi-qa-mpnet-base-dot-v1"`. -/
theorem C4_embedding_same_model (d : ℕ) (t : String) :
    (embedText d t).length = d ∧
    basicScript.docEmbedderModel = basicScript.textEmbedderModel ∧
    chunkingScript.docEmbedderModel = chunkingScript.textEmbedderModel ∧
    basicScript.docEmbedderModel = embeddingModelName ∧
    chunkingScript.textEmbedderModel = embeddingModelName := by
  refine ⟨?_, rfl, rfl, rfl, rfl⟩
  simp [embedText]

/-- Claim C5: the QA pipeline run is exactly the composition fixed by the
connections: the query is embedded, the query vector is handed to the
retriever over the store, and the reader receives exactly the retrieved
documents' contents; both scripts declare the connections
`embedder.embedding -> retriever.query_embedding` and
`retriever.documents -> reader.documents`. -/
theorem C5_pipeline_wiring (E : String → List ℚ) (f : String → String → ℚ)
    (store : List Document) (q : String) (rk tk : ℕ) :
    runQAPipeline E f store q rk tk =
      extractiveRead f q ((retrieve store (E q) rk).map Document.content) tk ∧
    basicScript.qaConnections =
      [("embedder.embedding", "retriever.query_embedding"),
       ("retriever.documents", "reader.documents")] ∧
    chunkingScript.qaConnections = basicScript.qaConnections :=
  ⟨rfl, rfl, rfl⟩

/-- Claim C6 counterexample: the two scripts do not agree on "every other
behaviour": their hard-coded query strings differ, so the claim that only
chunking and the reader model name distinguish them is false. -/
theorem C6_counterexample : basicScript.query ≠ chunkingScript.query := by
  decide

/-- Claim C6 (amended): the two scripts differ in whether the input text is
chunked before indexing, in the reader model name, in the input texts and
in the query string; the embedding model used for documents and queries,
both pipelines' connections, the retriever `top_k` and the reader `top_k`
are identical between the two scripts. -/
theorem C6_amended_script_diff :
    basicScript.docEmbedderModel = chunkingScript.docEmbedderModel ∧
    basicScript.textEmbedderModel = chunkingScript.textEmbedderModel ∧
    basicScript.indexingConnections = chunkingScript.indexingConnections ∧
    basicScript.qaConnections = chunkingScript.qaConnections ∧
    basicScript.retrieverTopK = chunkingScript.retrieverTopK ∧
    basicScript.readerTopK = chunkingScript.readerTopK ∧
    basicScript.chunksInput = false ∧
    chunkingScript.chunksInput = true ∧
    basicScript.readerModel ≠ chunkingScript.readerModel ∧
    basicScript.query ≠ chunkingScript.query ∧
    basicInputTexts ≠ [chunkingText] := by
  refine ⟨rfl, rfl, rfl, rfl, rfl, rfl, rfl, rfl, by decide, by decide, ?_⟩
  intro h
  have hlen := congrArg List.length h
  simp [basicInputTexts, sample_texts] at hlen

/-- Claim C7: the basic script builds exactly one `Document` per value of
the `sample_texts` dictionary — five documents, in insertion order — and
the indexing pipeline writes exactly these documents (embedded) into the
freshly initialized, initially empty in-memory document store. -/
theorem C7_basic_indexing (E : String → List ℚ) :
    basicDocuments.length = 5 ∧
    basicDocuments.map Document.content = sample_texts.map Prod.snd ∧
    newDocumentStore = [] ∧
    runIndexingPipeline E newDocumentStore basicDocuments =
      basicDocuments.map (embedDoc E) ∧
    (runIndexingPipeline E newDocumentStore basicDocuments).map Document.content
      = sample_texts.map Prod.snd :=
  ⟨rfl, rfl, rfl, rfl, rfl⟩

/-- Claim C8: the final extraction step indexes the reader's answers list
at position 0 without a guard: it yields a value exactly when the list is
non-empty (namely the first answer's span text), and none — the script's
out-of-range failure — exactly when the reader returned no answers. -/
theorem C8_unguarded_extraction (answers : List Answer) :
    (finalResponse answers = none ↔ answers = []) ∧
    ∀ a rest, finalResponse (a :: rest) = some a.data := by
  constructor
  · cases answers <;> simp [finalResponse]
  · intro a rest
    simp [finalResponse]

/-- Claim C9: indexing preserves every document's text content: the store
contents after the run are exactly the prior contents followed by the input
texts, and the embedder only sets the embedding field, leaving the content
unchanged. -/
theorem C9_indexing_frame (E : String → List ℚ) (store docs : List Document) :
    (runIndexingPipeline E store docs).map Document.content =
      store.map Document.content ++ docs.map Document.content ∧
    (∀ d, (embedDoc E d).content = d.content ∧
      (embedDoc E d).embedding = some (E d.content)) := by
  constructor
  · simp [runIndexingPipeline, embedDoc]
  · intro d
    exact ⟨rfl, rfl⟩

/-- Claim C10: the QA pipeline is deterministic: with the document store,
the embedding model, the reader confidence model, the query and both
`top_k` parameters fixed, two runs return the same answers in the same
order. -/
theorem C10_pipeline_deterministic (E : String → List ℚ)
    (f : String → String → ℚ) (store : List Document) (q : String)
    (rk tk : ℕ) :
    runQAPipeline E f store q rk tk = runQAPipeline E f store q rk tk :=
  rfl
